import Mathlib

/-!
Verification development for the dashboard callback module
`federated-data-management-portal/src/callbacks.py`.

The Python module is shallowly embedded: Python dicts are association lists
in insertion order (keys are unique in every theorem's intended domain, and
theorems add `Nodup` hypotheses where key uniqueness matters), Python ints
are `Int`, Python floats arising from `size / total` and `round(x, 2)` are
modelled exactly over `ℚ`, a Python function that may `return None` returns
an `Option`, and a Python function that may raise returns an
`Except String` with the exception class name as the error payload.
Presentation-only output (the `html.Br()` element, Dash `DataTable` styling
and the markdown tooltip strings) is not part of the model; the numeric and
string payloads that the claims are about are.
-/

namespace Callbacks

/-- One element of an organisation's `variable_info` list in the
descriptive data: a record with keys `main_class`, `main_class_count`,
`sub_class`, `sub_class_count`. -/
structure VarInfoEntry where
  main_class : String
  main_class_count : Int
  sub_class : String
  sub_class_count : Int
deriving DecidableEq, Repr

/-- One organisation's record in a snapshot of the descriptive data:
`sample_size`, `country`, and the optional `variable_info` key (absent key
modelled as `none`; `generate_fair_data_availability` catches the
`KeyError` of an absent key). -/
structure OrgRecord where
  sample_size : Int
  country : String
  variable_info : Option (List VarInfoEntry)
deriving DecidableEq, Repr

/-- A snapshot: Python dict from organisation name to record, in insertion
order. -/
abbrev Snapshot := List (String × OrgRecord)

/-- The `descriptive_data` argument: Python dict from ISO-timestamp string
to snapshot, in insertion order. -/
abbrev DescriptiveData := List (String × Snapshot)

/-- Python `d[k]` on a dict modelled as first-match lookup; on genuine
dicts (unique keys) this is the unique binding. -/
def dictGet {β : Type} (d : List (String × β)) (k : String) : Option β :=
  (d.find? (fun p => p.1 = k)).map (fun p => p.2)

/-- Lexicographic code-point order on character lists: Python string
comparison. -/
def charsLt : List Char → List Char → Bool
  | [], [] => false
  | [], _ :: _ => true
  | _ :: _, [] => false
  | a :: l, b :: m =>
    if a < b then true else if b < a then false else charsLt l m

/-- Python `s < t` on strings. -/
def strLt (a b : String) : Bool := charsLt a.data b.data

/-- Python `max(xs)` over strings (lexicographic by code point); keeps the
earlier element on ties, as Python `max` does. -/
def pyMax : List String → Option String
  | [] => none
  | x :: xs => some (xs.foldl (fun b a => if strLt b a then a else b) x)

/-- `descriptive_data[max(descriptive_data.keys())]`: the snapshot under
the lexicographically maximal timestamp key, used by `fetch_field_count`,
`fetch_number_of_keys`, `fetch_total_sample_size`,
`generate_sample_size_horizontal_bar` and `generate_donut_chart`.
`none` exactly when the dict is empty (the Python guard `if
descriptive_data:`). -/
def latestStr (d : DescriptiveData) : Option Snapshot :=
  match pyMax (d.map Prod.fst) with
  | none => none
  | some k => dictGet d k

/-- Gregorian day number of a civil date (Hinnant day-count algorithm),
used to order parsed ISO timestamps exactly as `datetime` does. -/
def daysFromCivil (y m d : Int) : Int :=
  let y' := if m ≤ 2 then y - 1 else y
  let era := (if 0 ≤ y' then y' else y' - 399) / 400
  let yoe := y' - era * 400
  let mp := (m + 9) % 12
  let doy := (153 * mp + 2) / 5 + d - 1
  let doe := yoe * 365 + yoe / 4 - yoe / 100 + doy
  era * 146097 + doe - 719468

/-- Number of days in a Gregorian month, for `fromisoformat` validation. -/
def daysInMonth (y m : Nat) : Nat :=
  if m = 2 then
    if (y % 4 = 0 ∧ y % 100 ≠ 0) ∨ y % 400 = 0 then 29 else 28
  else if m = 4 ∨ m = 6 ∨ m = 9 ∨ m = 11 then 30
  else 31

/-- Decimal value of a digit run (validity checked separately). -/
def charsToNatGo (acc : Nat) : List Char → Nat
  | [] => acc
  | c :: cs => charsToNatGo (acc * 10 + (c.toNat - 48)) cs

/-- Parse a fixed-width decimal field. -/
def parseNatLen (l : List Char) (len : Nat) : Option Nat :=
  if l.length = len ∧ l.all Char.isDigit then some (charsToNatGo 0 l) else none

/-- Parse `YYYY-MM-DD` with calendar validation, giving the day number. -/
def parseDate (l : List Char) : Option Int :=
  match parseNatLen (l.take 4) 4, parseNatLen ((l.drop 5).take 2) 2,
        parseNatLen (l.drop 8) 2 with
  | some y, some m, some d =>
    if (l.drop 4).take 1 = ['-'] ∧ (l.drop 7).take 1 = ['-'] ∧
        1 ≤ m ∧ m ≤ 12 ∧ 1 ≤ d ∧ d ≤ daysInMonth y m then
      some (daysFromCivil (y : Int) (m : Int) (d : Int))
    else none
  | _, _, _ => none

/-- Parse `HH:MM:SS`, giving seconds since midnight. -/
def parseTime (l : List Char) : Option Int :=
  match parseNatLen (l.take 2) 2, parseNatLen ((l.drop 3).take 2) 2,
        parseNatLen (l.drop 6) 2 with
  | some h, some mi, some sec =>
    if (l.drop 2).take 1 = [':'] ∧ (l.drop 5).take 1 = [':'] ∧
        h ≤ 23 ∧ mi ≤ 59 ∧ sec ≤ 59 then
      some ((h : Int) * 3600 + (mi : Int) * 60 + (sec : Int))
    else none
  | _, _, _ => none

/-- Parse `±HH:MM`, giving the UTC offset in seconds. -/
def parseOffset (l : List Char) : Option Int :=
  match parseNatLen ((l.drop 1).take 2) 2, parseNatLen (l.drop 4) 2 with
  | some h, some mi =>
    if (l.drop 3).take 1 = [':'] ∧ h ≤ 23 ∧ mi ≤ 59 then
      let v := (h : Int) * 3600 + (mi : Int) * 60
      if l.take 1 = ['+'] then some v
      else if l.take 1 = ['-'] then some (-v)
      else none
    else none
  | _, _ => none

/-- Model of `datetime.fromisoformat` on the timestamp forms the portal
uses: `YYYY-MM-DD`, `YYYY-MM-DDTHH:MM:SS`, and the latter with a `±HH:MM`
offset. Returns `(aware, v)` where `v` orders values exactly as the
resulting `datetime` objects compare (naive datetimes field-wise, aware
datetimes by instant); `none` models a `ValueError`. -/
def fromisoformat (s : String) : Option (Bool × Int) :=
  let l := s.data
  if l.length = 10 then
    (parseDate l).map (fun days => (false, days * 86400))
  else if l.length = 19 then
    match parseDate (l.take 10), parseTime (l.drop 11) with
    | some days, some t =>
      if (l.drop 10).take 1 = ['T'] then some (false, days * 86400 + t)
      else none
    | _, _ => none
  else if l.length = 25 then
    match parseDate (l.take 10), parseTime ((l.drop 11).take 8),
          parseOffset (l.drop 19) with
    | some days, some t, some off =>
      if (l.drop 10).take 1 = ['T'] then
        some (true, days * 86400 + t - off)
      else none
    | _, _, _ => none
  else none

/-- Tail of `max(keys, key=lambda x: datetime.fromisoformat(x))`: fold the
remaining keys keeping the first key whose parsed value is maximal;
`TypeError` when naive and aware datetimes are compared, `ValueError` when a
key fails to parse. -/
def isoMaxGo (best : String) (bv : Bool × Int) : List String → Except String String
  | [] => .ok best
  | k :: ks =>
    match fromisoformat k with
    | none => .error "ValueError"
    | some v =>
      if v.1 ≠ bv.1 then .error "TypeError"
      else if bv.2 < v.2 then isoMaxGo k v ks
      else isoMaxGo best bv ks

/-- `max(descriptive_data.keys(), key=lambda x: datetime.fromisoformat(x))`
(callbacks.py line 200); `ValueError` on an empty dict. -/
def isoMax : List String → Except String String
  | [] => .error "ValueError"
  | k :: ks =>
    match fromisoformat k with
    | none => .error "ValueError"
    | some v => isoMaxGo k v ks

/-- The snapshot under the `datetime`-maximal timestamp, as selected by
`generate_fair_data_availability` (lines 200-203). -/
def isoLatest (d : DescriptiveData) : Except String Snapshot :=
  match isoMax (d.map Prod.fst) with
  | .error e => .error e
  | .ok k =>
    match dictGet d k with
    | some s => .ok s
    | none => .error "KeyError"

/-- `fetch_field_count` (lines 15-36), with the default field `country`.
Returns the count of distinct country values in the latest snapshot and the
pluralised label; `None` (here `none`) when `descriptive_data` is empty.
The `html.Br()` separator between the two strings is presentational and not
modelled. -/
def fetch_field_count (descriptive_data : DescriptiveData) (text : String := "countr") :
    Option (String × String) :=
  match latestStr descriptive_data with
  | none => none
  | some latest_data =>
    let num_countries := ((latest_data.map (fun p => p.2.country)).dedup).length
    some (toString num_countries,
      text ++ (if num_countries > 1 then "ies" else "y"))

/-- `fetch_number_of_keys` (lines 39-58): `len(latest_data)` and the
pluralised label; `none` on empty input. -/
def fetch_number_of_keys (descriptive_data : DescriptiveData) (text : String := "organisation") :
    Option (String × String) :=
  match latestStr descriptive_data with
  | none => none
  | some latest_data =>
    some (toString latest_data.length,
      text ++ (if latest_data.length > 1 then "s" else ""))

/-- `fetch_total_sample_size` (lines 61-83): sum of `sample_size` over the
latest snapshot; `none` on empty input. -/
def fetch_total_sample_size (descriptive_data : DescriptiveData) (text : String := "AYA") :
    Option (String × String) :=
  match latestStr descriptive_data with
  | none => none
  | some latest_data =>
    let num_patients := (latest_data.map (fun p => p.2.sample_size)).sum
    some (toString num_patients,
      text ++ (if num_patients > 1 then "s" else ""))

/-- Stable insertion into an ascending list, first component as the sort
key: the model of Python `sorted` on the lists this module sorts (string
keys, and key/value pairs with distinct keys). -/
def insertByFst {β : Type} (a : String × β) :
    List (String × β) → List (String × β)
  | [] => [a]
  | b :: bs => if strLt b.1 a.1 then b :: insertByFst a bs else a :: b :: bs

/-- Python `sorted` on key/value pairs (distinct keys). -/
def pySortPairs {β : Type} : List (String × β) → List (String × β)
  | [] => []
  | a :: as => insertByFst a (pySortPairs as)

/-- Python `sorted` on a list of strings. -/
def pySortStr (l : List String) : List String :=
  (pySortPairs (l.map (fun s => (s, ())))).map Prod.fst

/-- `round(x, ndigits=2)` over the exact rational model of the float
division: round to the nearest multiple of 1/100. -/
def round2 (q : ℚ) : ℚ := ((round (q * 100) : ℤ) : ℚ) / 100

/-- Render a proportion as the percentage text `p * 100:.2f` of the
hovertemplate, in the exact rational model (two decimal digits). -/
def pct2 (q : ℚ) : String :=
  let c : Int := round (q * 10000)
  toString (c / 100) ++ "." ++
    (if c % 100 < 10 then "0" ++ toString (c % 100) else toString (c % 100))

/-- One trace of the stacked horizontal bar chart (lines 117-131): the
single-element `x` list, the trace `name` (an organisation), and the
hovertemplate string. -/
structure BarSeg where
  x : List ℚ
  name : String
  hover : String
deriving DecidableEq, Repr

/-- The figure built by `generate_sample_size_horizontal_bar`: traces,
title, and the annotations (x position and text) of lines 134-143. -/
structure BarFigure where
  data : List BarSeg
  title : String
  annotations : List (ℚ × String)
deriving DecidableEq, Repr

/-- The sample sizes of the latest snapshot in dict insertion order
(line 109). -/
def bar_sample_sizes (latest_data : Snapshot) : List Int :=
  latest_data.map (fun p => p.2.sample_size)

/-- The proportions of line 111: each insertion-order sample size divided
by the total, rounded to two decimals. -/
def bar_proportions (latest_data : Snapshot) : List ℚ :=
  let sizes := bar_sample_sizes latest_data
  sizes.map (fun (size : Int) => round2 ((size : ℚ) / ((sizes.sum : Int) : ℚ)))

/-- The hovertemplate of lines 125-128. -/
def barHover (org : String) (size : Int) (proportion : ℚ) (text : String) : String :=
  org ++ " has made data of " ++ toString size ++ " " ++ text ++
    (if size > 1 then "s" else "") ++ " available, which is " ++
    pct2 proportion ++ "% of all available " ++ text ++ " data."

/-- The figure assembly of lines 113-169: note that `data[i]` pairs the
i-th SORTED organisation name with the i-th INSERTION-ORDER sample size
and proportion. -/
def mkBarFigure (latest_data : Snapshot) (text : String) : BarFigure :=
  let sample_sizes := bar_sample_sizes latest_data
  let proportions := bar_proportions latest_data
  let organisations := pySortStr (latest_data.map Prod.fst)
  { data := organisations.enum.map (fun p =>
      { x := [proportions.getD p.1 0]
        name := p.2
        hover := barHover p.2 (sample_sizes.getD p.1 0) (proportions.getD p.1 0) text })
    title := "Number of " ++ text ++ "s per organisation"
    annotations := (List.range organisations.length).map (fun i =>
      ((proportions.take (i + 1)).sum - proportions.getD i 0 / 2,
        toString (sample_sizes.getD i 0))) }

/-- `generate_sample_size_horizontal_bar` (lines 86-169): `none` on empty
input; `ZeroDivisionError` when the proportion list is non-empty and the
total sample size is zero (the division of line 111 is unguarded);
otherwise the figure. -/
def generate_sample_size_horizontal_bar (descriptive_data : DescriptiveData)
    (text : String := "AYA") : Except String (Option BarFigure) :=
  match latestStr descriptive_data with
  | none => .ok none
  | some latest_data =>
    let sample_sizes := bar_sample_sizes latest_data
    if sample_sizes ≠ [] ∧ sample_sizes.sum = 0 then .error "ZeroDivisionError"
    else .ok (some (mkBarFigure latest_data text))

/-- The figure built by `generate_donut_chart`: the `labels` and `values`
lists of the pie trace and the title. -/
structure DonutFigure where
  labels : List String
  values : List Int
  title : String
deriving DecidableEq, Repr

/-- The `defaultdict(int)` accumulation of lines 464-466: add each
organisation's sample size to its country's bucket, buckets in first
insertion order. -/
def upsertAdd : List (String × Int) → String → Int → List (String × Int)
  | [], c, n => [(c, n)]
  | (k, v) :: rest, c, n =>
    if k = c then (k, v + n) :: rest else (k, v) :: upsertAdd rest c n

/-- The per-country totals of lines 464-466. -/
def countryAgg (latest_data : Snapshot) : List (String × Int) :=
  latest_data.foldl (fun acc p => upsertAdd acc p.2.country p.2.sample_size) []

/-- `generate_donut_chart` (lines 436-499): `.ok none` on empty input.
For `chart_type="organisation"` the labels are the SORTED organisation
names while the values stay in dict insertion order (lines 460-461).  For
`chart_type="country"` the aggregated pairs are sorted together, and
`zip(*sorted(...))` raises `ValueError` when the latest snapshot is empty.
Any other `chart_type` reaches line 472 with `labels` unassigned:
`UnboundLocalError`. -/
def generate_donut_chart (descriptive_data : DescriptiveData)
    (text : String := "AYA") (chart_type : String := "organisation") :
    Except String (Option DonutFigure) :=
  match latestStr descriptive_data with
  | none => .ok none
  | some latest_data =>
    if chart_type = "organisation" then
      .ok (some
        { labels := pySortStr (latest_data.map Prod.fst)
          values := latest_data.map (fun p => p.2.sample_size)
          title := text ++ "s per organisation" })
    else if chart_type = "country" then
      match pySortPairs (countryAgg latest_data) with
      | [] => .error "ValueError"
      | items =>
        .ok (some
          { labels := items.map Prod.fst
            values := items.map Prod.snd
            title := text ++ "s per country" })
    else .error "UnboundLocalError"

/-- One variable's entry in `global_schema_data['variable_info']`: its
`class` string and the `value_mapping.terms` dict flattened to (value name,
`target_class`) pairs in insertion order (an absent or empty
`value_mapping`/`terms` both just produce no value rows, lines 306-308). -/
structure VarSchema where
  cls : String
  value_mapping : List (String × String)
deriving DecidableEq, Repr

/-- The `global_schema_data` argument; `variable_info` is `none` when the
key is absent (`.get('variable_info')`, lines 195-197). -/
structure GlobalSchemaData where
  variable_info : Option (List (String × VarSchema))
deriving DecidableEq, Repr

/-- The ontology prefix table of lines 192-193. -/
def prefixesList : List (String × String) :=
  [("ncit", "http://ncicb.nci.nih.gov/xml/owl/EVS/Thesaurus.owl#"),
   ("sct", "http://snomed.info/sct")]

/-- Whether `pat` is an initial segment of `l`. -/
def charsStartWith : List Char → List Char → Bool
  | [], _ => true
  | _ :: _, [] => false
  | a :: l, b :: m => a = b && charsStartWith l m

/-- Python `pat in s` (substring test) for non-empty `pat`. -/
def charsHasSub (pat : List Char) : List Char → Bool
  | [] => charsStartWith pat []
  | c :: cs => charsStartWith pat (c :: cs) || charsHasSub pat cs

/-- Python `pat in s`. -/
def hasSubstr (s pat : String) : Bool := charsHasSub pat.data s.data

/-- Python `str.replace` on character lists: every non-overlapping
occurrence of (non-empty) `pat`, scanned left to right, becomes `rep`.
The fuel argument is called with the list's length, which bounds the
number of steps. -/
def replGo (pat rep : List Char) : Nat → List Char → List Char
  | _, [] => []
  | 0, l => l
  | fuel + 1, c :: cs =>
    if charsStartWith pat (c :: cs) then
      rep ++ replGo pat rep fuel (List.drop (pat.length - 1) cs)
    else c :: replGo pat rep fuel cs

/-- Python `s.replace(pat, rep)` for non-empty `pat`. -/
def strReplace (s pat rep : String) : String :=
  String.mk (replGo pat.data rep.data s.data.length s.data)

/-- The prefix substitution of lines 209-223: the first prefix whose
`prefix + ":"` occurs in the string is replaced by its URI (all
occurrences, as `str.replace` does), then the loop breaks. -/
def substPrefixes (s : String) : String :=
  match prefixesList.find? (fun p => hasSubstr s (p.1 ++ ":")) with
  | some p => strReplace s (p.1 ++ ":") p.2
  | none => s

/-- The deep-copied, prefix-substituted `_variable_info` entry for one
variable (lines 208-223). -/
def substSchema (v : VarSchema) : VarSchema :=
  { cls := substPrefixes v.cls
    value_mapping := v.value_mapping.map (fun t => (t.1, substPrefixes t.2)) }

/-- Python `str.title()` preceded by `replace('_', ' ')` as used for the
row labels: uppercase a letter after a non-letter, lowercase otherwise. -/
def pyTitleGo : Bool → List Char → List Char
  | _, [] => []
  | prevAlpha, c :: cs =>
    if c.isAlpha then
      (if prevAlpha then c.toLower else c.toUpper) :: pyTitleGo true cs
    else c :: pyTitleGo false cs

/-- Python `str.title()`. -/
def pyTitle (s : String) : String := String.mk (pyTitleGo false s.data)

/-- The fallback record of the `except KeyError` branch (lines 234-236). -/
def fallbackEntry : VarInfoEntry :=
  { main_class := "", main_class_count := 0, sub_class := "", sub_class_count := 0 }

/-- `_org_variable_info` for one organisation (lines 230-238): the
organisation's `variable_info` entries whose `main_class` equals the
variable's (substituted) class, or the single fallback record when the
lookup raises `KeyError`. -/
def matchEntries (rec : Option OrgRecord) (cls : String) : List VarInfoEntry :=
  match rec with
  | none => [fallbackEntry]
  | some r =>
    match r.variable_info with
    | none => [fallbackEntry]
    | some l => l.filter (fun e => e.main_class = cls)

/-- `org_variable_info` (lines 227-238): for each organisation of the
latest snapshot, its matching entries. -/
def orgInfo (snap : Snapshot) (cls : String) : List (String × List VarInfoEntry) :=
  (snap.map Prod.fst).map (fun org => (org, matchEntries (dictGet snap org) cls))

/-- The predicate of the variable rows (lines 244-245): `main_class` and
`sub_class` both equal to the variable's class. -/
def varPred (cls : String) (e : VarInfoEntry) : Bool :=
  e.main_class = cls ∧ e.sub_class = cls

/-- The predicate of the value rows (lines 315-316): `main_class` equal to
the variable's class and `sub_class` equal to the value's target class. -/
def valPred (cls target : String) (e : VarInfoEntry) : Bool :=
  e.main_class = cls ∧ e.sub_class = target

/-- The per-organisation cell of lines 281-299 (variable rows) and 351-373
(value rows): walking the organisation's list, the FIRST entry satisfying
the predicate supplies the cell (then `break`); every non-matching entry,
and an empty list, writes 0. -/
def cellVal (pred : VarInfoEntry → Bool) (f : VarInfoEntry → Int)
    (l : List VarInfoEntry) : Int :=
  match l.find? pred with
  | some e => f e
  | none => 0

/-- One row of the availability DataFrame: the `Variables` and `Values`
label columns, the `Total {text}s` column, and the per-organisation cells
in organisation order. -/
structure Row where
  variablesCol : String
  values : String
  total : Int
  cells : List (String × Int)
deriving DecidableEq, Repr

/-- A variable row (lines 240-303): the total sums `main_class_count` over
ALL entries satisfying the predicate across all organisations (lines
241-246), whereas each cell takes only the first matching entry. -/
def mkVarRow (varName cls : String) (oi : List (String × List VarInfoEntry)) : Row :=
  { variablesCol := pyTitle (strReplace varName "_" " ")
    values := ""
    total := (oi.map (fun p =>
      (((p.2.filter (varPred cls)).map (fun e => e.main_class_count)).sum))).sum
    cells := oi.map (fun p =>
      (p.1, cellVal (varPred cls) (fun e => e.main_class_count) p.2)) }

/-- A value row (lines 308-377): the total sums `sub_class_count` over ALL
entries satisfying the predicate (lines 309-317), each cell takes the
first matching entry (the variable name appears only in the tooltip
strings, which are not modelled). -/
def mkValueRow (_varName cls value target : String)
    (oi : List (String × List VarInfoEntry)) : Row :=
  { variablesCol := ""
    values := pyTitle (strReplace value "_" " ")
    total := (oi.map (fun p =>
      (((p.2.filter (valPred cls target)).map (fun e => e.sub_class_count)).sum))).sum
    cells := oi.map (fun p =>
      (p.1, cellVal (valPred cls target) (fun e => e.sub_class_count) p.2)) }

/-- The DataFrame rows of `generate_fair_data_availability` (lines
226-380) for a given latest snapshot: for each schema variable one
variable row followed by one value row per `value_mapping` term. -/
def fairRows (g : GlobalSchemaData) (snap : Snapshot) : List Row :=
  (g.variable_info.getD []).flatMap (fun p =>
    let sch := substSchema p.2
    let oi := orgInfo snap sch.cls
    mkVarRow p.1 sch.cls oi ::
      sch.value_mapping.map (fun vt => mkValueRow p.1 sch.cls vt.1 vt.2 oi))

/-- `generate_fair_data_availability` (lines 172-387), modelled up to its
DataFrame `df` (the first return value; the tooltip strings and the Dash
`DataTable` wrapper of `create_data_table` are presentational).  The
timestamp selection of line 200 is `max` by `datetime.fromisoformat` and is
UNGUARDED: an empty `descriptive_data` raises `ValueError`. -/
def generate_fair_data_availability (g : GlobalSchemaData)
    (descriptive_data : DescriptiveData) : Except String (List Row) :=
  match isoLatest descriptive_data with
  | .error e => .error e
  | .ok snap => .ok (fairRows g snap)

/-- `generate_completeness_chart` operates on the availability DataFrame
(received serialized; deserialization is modelled as the identity on the
row list).  The frame operations are embedded per column label: the claims
concern the `Total {text}s` column, and each per-organisation column
undergoes exactly the same element-wise pipeline before being dropped from
`visualisation_df` (lines 562-567).

The variable rows of line 524: rows whose `Variables` cell is non-empty. -/
def availRows (t : List Row) : List Row :=
  t.filter (fun r => r.variablesCol ≠ "")

/-- The forward fill of line 529: each row paired with the most recent
non-empty `Variables` label above it (pandas leaves a leading run of empty
labels as NaN; those groups are dropped by `groupby`, and here they carry
the label `""`, which is never a variable-row label). -/
def ffillRows (cur : String) : List Row → List (String × Row)
  | [] => []
  | r :: rs =>
    let v := if r.variablesCol = "" then cur else r.variablesCol
    (v, r) :: ffillRows v rs

/-- The `groupby('Variables').sum()` of line 533 applied to the
`Total {text}s` column, at group label `v`: the summed totals of the value
rows (rows with a non-empty `Values` cell) forward-filled to `v`. -/
def valueSumTotal (t : List Row) (v : String) : Int :=
  (((ffillRows "" t).filter (fun p => p.2.values ≠ "" ∧ p.1 = v)).map
    (fun p => p.2.total)).sum

/-- The `Total {text}s` entry of the variable row labelled `v` in
`available_variable_counts_df` (pandas `set_index('Variables')`; labels are
unique in any table the availability builder produces, and the theorems
assume so). -/
def varRowTotal (t : List Row) (v : String) : Option Int :=
  ((availRows t).find? (fun r => r.variablesCol = v)).map (fun r => r.total)

/-- Lines 541-545 at label `v` for the `Total {text}s` column: the
label-aligned difference `valueSums - variableRow` with `fill_value=0`,
then `clip(upper=0).abs()`. -/
def unavailTotal (t : List Row) (v : String) : Int :=
  |min (valueSumTotal t v - (varRowTotal t v).getD 0) 0|

/-- Lines 548-549 at label `v`: the variable row total minus the
unavailable total (`fill_value=0`), i.e. the `Total available {text}s`
column of `visualisation_df`. -/
def availTotal (t : List Row) (v : String) : Int :=
  (varRowTotal t v).getD 0 - unavailTotal t v

/-- `generate_completeness_chart` (lines 502-631) up to the two bar
traces: for each variable of the availability table, the label together
with its `Total available {text}s` and `Total unavailable {text}s` bar
heights (the x-axis ordering of the merged frame is abstracted to
variable-row order). -/
def generate_completeness_chart (t : List Row) : List (String × Int × Int) :=
  ((availRows t).map (fun r => r.variablesCol)).map
    (fun v => (v, availTotal t v, unavailTotal t v))

/-! ## Helper lemmas -/

/-- The fold implementing Python `max` returns one of its inputs. -/
theorem foldl_max_mem (x : String) (xs : List String) :
    xs.foldl (fun b a => if strLt b a then a else b) x ∈ x :: xs := by
  induction xs generalizing x with
  | nil => simp
  | cons y ys ih =>
    simp only [List.foldl_cons]
    by_cases h : strLt x y
    · simp only [if_pos h]
      have := ih y
      simp only [List.mem_cons] at this ⊢
      tauto
    · simp only [if_neg h]
      have := ih x
      simp only [List.mem_cons] at this ⊢
      tauto

/-- A key present among a dict's keys can be looked up. -/
theorem dictGet_isSome_of_mem {β : Type} (d : List (String × β)) (k : String)
    (h : k ∈ d.map Prod.fst) : ∃ v, dictGet d k = some v := by
  induction d with
  | nil => simp at h
  | cons a rest ih =>
    by_cases he : a.1 = k
    · exact ⟨a.2, by simp [dictGet, List.find?_cons_of_pos, he]⟩
    · rw [List.map_cons] at h
      rcases List.mem_cons.mp h with h' | h'
      · exact absurd h'.symm he
      · obtain ⟨v, hv⟩ := ih h'
        refine ⟨v, ?_⟩
        simp only [dictGet] at hv ⊢
        rw [List.find?_cons_of_neg _ (by simpa using he)]
        exact hv

/-- On a non-empty `descriptive_data` the lexicographically-latest
snapshot exists (the dict subscript of line 34 cannot fail). -/
theorem latestStr_isSome (d : DescriptiveData) (h : d ≠ []) :
    ∃ snap, latestStr d = some snap := by
  match d, h with
  | (k0, s0) :: rest, _ =>
    have hm := foldl_max_mem k0 (rest.map Prod.fst)
    unfold latestStr pyMax
    simp only [List.map_cons]
    exact dictGet_isSome_of_mem ((k0, s0) :: rest) _ (by rw [List.map_cons]; exact hm)

/-- Python dict lookup on a dict with unique keys returns the binding. -/
theorem dictGet_eq_of_nodup {β : Type} (d : List (String × β)) (k : String) (v : β)
    (hn : (d.map Prod.fst).Nodup) (hm : (k, v) ∈ d) : dictGet d k = some v := by
  induction d with
  | nil => simp at hm
  | cons a rest ih =>
    rw [List.map_cons, List.nodup_cons] at hn
    rcases List.mem_cons.mp hm with h | h
    · subst h
      simp [dictGet, List.find?_cons_of_pos]
    · have hak : a.1 ≠ k := by
        intro he
        exact hn.1 (he ▸ (List.mem_map.mpr ⟨(k, v), h, rfl⟩))
      simp only [dictGet] at ih ⊢
      rw [List.find?_cons_of_neg _ (by simpa using hak)]
      exact ih hn.2 h

/-- Lookup in a dict tabulating a function over a key list. -/
theorem dictGet_tabulate {β : Type} (ks : List String) (f : String → β) (o : String)
    (ho : o ∈ ks) : dictGet (ks.map (fun org => (org, f org))) o = some (f o) := by
  induction ks with
  | nil => simp at ho
  | cons a rest ih =>
    by_cases h : a = o
    · subst h
      simp [dictGet, List.find?_cons_of_pos]
    · rcases List.mem_cons.mp ho with h' | h'
      · exact absurd h'.symm h
      · have := ih h'
        simp only [List.map_cons, dictGet] at this ⊢
        rw [List.find?_cons_of_neg _ (by simpa using h)]
        exact this

/-! ## Concrete inputs used by witnesses and counterexamples -/

/-- An organisation record with sample size 2. -/
def recA : OrgRecord := { sample_size := 2, country := "NL", variable_info := none }

/-- An organisation record with sample size 1. -/
def recB : OrgRecord := { sample_size := 1, country := "DE", variable_info := none }

/-- A schema with one variable and no value mapping. -/
def g1 : GlobalSchemaData :=
  { variable_info := some [("diagnosis", { cls := "C1", value_mapping := [] })] }

/-- Snapshot holding only OrgA. -/
def s1 : Snapshot := [("OrgA", recA)]

/-- Snapshot holding only OrgB. -/
def s2 : Snapshot := [("OrgB", recB)]

/-! ## C5 -/

/-- C5 counterexample: on empty `descriptive_data`,
`generate_fair_data_availability` does not return an empty result — the
unguarded `max(descriptive_data.keys(), ...)` of line 200 raises
`ValueError`, so the claim that EVERY operation (in particular the
availability table builder) returns no value rather than raising is false. -/
theorem fair_data_availability_raises_on_empty :
    generate_fair_data_availability g1 [] = .error "ValueError" := rfl

/-- C5 (amended): on empty `descriptive_data` the three summary scalar
functions return `None` and the two chart builders return `None`, all
without raising; `generate_fair_data_availability` alone raises
`ValueError` from `max` on an empty sequence. -/
theorem empty_descriptive_data_behaviour (g : GlobalSchemaData) (t1 t2 t3 t4 t5 ct : String) :
    fetch_field_count [] t1 = none ∧
    fetch_number_of_keys [] t2 = none ∧
    fetch_total_sample_size [] t3 = none ∧
    generate_sample_size_horizontal_bar [] t4 = .ok none ∧
    generate_donut_chart [] t5 ct = .ok none ∧
    generate_fair_data_availability g [] = .error "ValueError" :=
  ⟨rfl, rfl, rfl, rfl, rfl, rfl⟩

/-! ## C7 -/

/-- C7: for a non-empty `descriptive_data` (witnessed by the latest
snapshot existing) with distinct organisation keys, the count reported by
`fetch_number_of_keys` is the number of distinct organisation keys of the
latest snapshot. -/
theorem number_of_keys_eq_distinct_orgs (d : DescriptiveData) (snap : Snapshot)
    (text : String) (hl : latestStr d = some snap)
    (hn : (snap.map Prod.fst).Nodup) :
    fetch_number_of_keys d text =
      some (toString ((snap.map Prod.fst).dedup.length),
        text ++ (if ((snap.map Prod.fst).dedup.length) > 1 then "s" else "")) := by
  unfold fetch_number_of_keys
  rw [hl]
  rw [List.Nodup.dedup hn, List.length_map]

/-- C7 witness at a two-organisation snapshot. -/
theorem number_of_keys_eq_distinct_orgs_witness :
    fetch_number_of_keys [("2024-01-01T00:00:00", [("OrgB", recB), ("OrgA", recA)])] "organisation" =
      some (toString (((([("OrgB", recB), ("OrgA", recA)] : Snapshot).map Prod.fst).dedup).length),
        "organisation" ++
          (if (((([("OrgB", recB), ("OrgA", recA)] : Snapshot).map Prod.fst).dedup).length) > 1
            then "s" else "")) :=
  number_of_keys_eq_distinct_orgs _ _ _ (by decide) (by decide)

/-! ## C9 -/

/-- C9 counterexample: the claim quantifies over every non-empty
`descriptive_data` whose latest snapshot has `sample_size` 0 for every
organisation.  When the latest snapshot has NO organisations the condition
holds vacuously, yet the comprehension of line 111 performs no division and
the function returns a figure instead of raising. -/
theorem zero_sample_sizes_empty_snapshot_returns_figure :
    ([("2024-01-01T00:00:00", ([] : Snapshot))] : DescriptiveData) ≠ [] ∧
    (∀ p ∈ ([] : Snapshot), p.2.sample_size = 0) ∧
    generate_sample_size_horizontal_bar [("2024-01-01T00:00:00", [])] "AYA" =
      .ok (some (mkBarFigure [] "AYA")) :=
  ⟨by decide, by simp, rfl⟩

/-- C9 (amended): when the latest snapshot contains at least one
organisation and every organisation's `sample_size` is 0, the unguarded
division of line 111 raises `ZeroDivisionError` and no figure is
returned. -/
theorem zero_total_sample_size_raises (d : DescriptiveData) (snap : Snapshot)
    (text : String) (hl : latestStr d = some snap) (hne : snap ≠ [])
    (hz : ∀ p ∈ snap, p.2.sample_size = 0) :
    generate_sample_size_horizontal_bar d text = .error "ZeroDivisionError" := by
  unfold generate_sample_size_horizontal_bar
  rw [hl]
  have h1 : bar_sample_sizes snap ≠ [] := by
    unfold bar_sample_sizes
    simpa using hne
  have h2 : (bar_sample_sizes snap).sum = 0 := by
    apply List.sum_eq_zero
    intro x hx
    rw [bar_sample_sizes, List.mem_map] at hx
    obtain ⟨p, hp, rfl⟩ := hx
    exact hz p hp
  simp [h1, h2]

/-- C9 witness at a snapshot with one zero-sized organisation. -/
theorem zero_total_sample_size_raises_witness :
    generate_sample_size_horizontal_bar
      [("2024-01-01T00:00:00",
        [("O", { sample_size := 0, country := "X", variable_info := none })])] "AYA" =
      .error "ZeroDivisionError" :=
  zero_total_sample_size_raises _
    [("O", { sample_size := 0, country := "X", variable_info := none })] _
    (by decide) (by decide) (by decide)

/-! ## C10 -/

/-- C10: for every non-empty `descriptive_data` and any `chart_type` other
than "organisation" or "country", `generate_donut_chart` reaches line 472
with `labels` never assigned and fails with `UnboundLocalError` instead of
returning a figure or `None`. -/
theorem donut_chart_unknown_type_unbound_local (d : DescriptiveData)
    (text ct : String) (hne : d ≠ []) (h1 : ct ≠ "organisation")
    (h2 : ct ≠ "country") :
    generate_donut_chart d text ct = .error "UnboundLocalError" := by
  obtain ⟨snap, hs⟩ := latestStr_isSome d hne
  unfold generate_donut_chart
  rw [hs]
  simp [h1, h2]

/-- C10 witness at `chart_type = "continent"`. -/
theorem donut_chart_unknown_type_unbound_local_witness :
    generate_donut_chart [("2024-01-01T00:00:00", s1)] "AYA" "continent" =
      .error "UnboundLocalError" :=
  donut_chart_unknown_type_unbound_local _ _ _ (by decide) (by decide) (by decide)

/-! ## C4 -/

/-- Two-timestamp input whose lexicographically maximal key is
`...+02:00` (snapshot `s2`) but whose `datetime`-maximal key is
`...+00:00` (snapshot `s1`): the `+02:00` wall time is the earlier
instant. -/
def dTz : DescriptiveData :=
  [("2024-06-01T00:00:00+00:00", s1), ("2024-06-01T00:00:00+02:00", s2)]

/-- `dTz` with the earlier (`+00:00`) snapshot removed: both inputs agree
on the snapshot under the lexicographically maximal key. -/
def dTzLate : DescriptiveData := [("2024-06-01T00:00:00+02:00", s2)]

/-- C4 counterexample: `dTz` and `dTzLate` agree on the snapshot under the
(lexicographically) maximal key and differ only in an earlier entry, yet
`generate_fair_data_availability` — which selects the latest snapshot by
`datetime.fromisoformat` order (line 200), not by string order — produces
different tables, because `2024-06-01T00:00:00+02:00` is lexicographically
larger but denotes the earlier instant. -/
theorem fair_data_availability_uses_iso_order :
    latestStr dTz = latestStr dTzLate ∧
    dTz ≠ dTzLate ∧
    generate_fair_data_availability g1 dTz = .ok (fairRows g1 s1) ∧
    generate_fair_data_availability g1 dTzLate = .ok (fairRows g1 s2) ∧
    fairRows g1 s1 ≠ fairRows g1 s2 :=
  ⟨by decide, by decide, rfl, rfl, by decide⟩

/-- C4 (amended): every operation is determined by the snapshot its OWN
selector picks.  Whenever two inputs agree on the snapshot under the
lexicographically maximal key, the five functions using
`max(descriptive_data.keys())` produce equal output (whether or not the
`datetime` selections agree); and whenever two inputs agree on the
snapshot under the `datetime.fromisoformat`-maximal key,
`generate_fair_data_availability` produces equal output. -/
theorem operations_determined_by_latest_snapshot (A B : DescriptiveData)
    (g : GlobalSchemaData) (t1 t2 t3 t4 t5 ct : String) :
    (latestStr A = latestStr B →
      fetch_field_count A t1 = fetch_field_count B t1 ∧
      fetch_number_of_keys A t2 = fetch_number_of_keys B t2 ∧
      fetch_total_sample_size A t3 = fetch_total_sample_size B t3 ∧
      generate_sample_size_horizontal_bar A t4 = generate_sample_size_horizontal_bar B t4 ∧
      generate_donut_chart A t5 ct = generate_donut_chart B t5 ct) ∧
    (isoLatest A = isoLatest B →
      generate_fair_data_availability g A = generate_fair_data_availability g B) := by
  constructor
  · intro h1
    unfold fetch_field_count fetch_number_of_keys fetch_total_sample_size
      generate_sample_size_horizontal_bar generate_donut_chart
    rw [h1]
    exact ⟨rfl, rfl, rfl, rfl, rfl⟩
  · intro h2
    unfold generate_fair_data_availability
    rw [h2]

/-- C4 witness.  The first implication is exercised at `dTz`/`dTzLate`,
which agree lexicographically but NOT under the `datetime` selector (that
is the counterexample pair), so the donut charts agree although the
availability tables differ; the second implication is exercised at a pair
agreeing under the `datetime` selector. -/
theorem operations_determined_by_latest_snapshot_witness :
    generate_donut_chart dTz "AYA" "organisation" =
      generate_donut_chart dTzLate "AYA" "organisation" ∧
    generate_fair_data_availability g1
        [("2024-02-02T00:00:00", s1), ("2024-01-01T00:00:00", s2)] =
      generate_fair_data_availability g1 [("2024-02-02T00:00:00", s1)] := by
  have h1 := operations_determined_by_latest_snapshot dTz dTzLate g1
    "countr" "organisation" "AYA" "AYA" "AYA" "organisation"
  have h2 := operations_determined_by_latest_snapshot
    [("2024-02-02T00:00:00", s1), ("2024-01-01T00:00:00", s2)]
    [("2024-02-02T00:00:00", s1)] g1
    "countr" "organisation" "AYA" "AYA" "AYA" "organisation"
  exact ⟨(h1.1 (by decide)).2.2.2.2, h2.2 rfl⟩

/-! ## C3 -/

/-- Latest snapshot whose dict insertion order (OrgB before OrgA) differs
from the sorted order of its keys. -/
def snapC3 : Snapshot := [("OrgB", recB), ("OrgA", recA)]

/-- Descriptive data whose latest snapshot is `snapC3`. -/
def dC3 : DescriptiveData := [("2024-01-01T00:00:00", snapC3)]

/-- C3 failing input: `generate_donut_chart` sorts the labels
(line 460) but leaves the values in dict insertion order (line 461), and
`generate_sample_size_horizontal_bar` does the same (lines 109-114), so
with insertion order OrgB, OrgA the label `OrgA` is paired with OrgB's
sample size 1 although OrgA's sample size is 2.  The hovertext of the
first bar trace likewise names OrgA with OrgB's size and proportion. -/
theorem donut_and_bar_misaligned_at_failing_input :
    generate_donut_chart dC3 "AYA" "organisation" =
      .ok (some { labels := ["OrgA", "OrgB"], values := [1, 2],
                  title := "AYAs per organisation" }) ∧
    dictGet snapC3 "OrgA" = some recA ∧
    recA.sample_size = 2 ∧
    (mkBarFigure snapC3 "AYA").data.map (fun seg => (seg.name, seg.x)) =
      [("OrgA", [33 / 100]), ("OrgB", [67 / 100])] ∧
    bar_proportions snapC3 = [33 / 100, 67 / 100] ∧
    round2 ((recA.sample_size : ℚ) / 3) = 67 / 100 := by
  refine ⟨rfl, by decide, by decide, ?_, ?_, ?_⟩
  · simp only [mkBarFigure, bar_proportions, bar_sample_sizes, snapC3, recA, recB]
    norm_num [round2, round_eq, pySortStr, pySortPairs, insertByFst, strLt, charsLt,
      List.enum, List.enumFrom]
  · simp only [bar_proportions, bar_sample_sizes, snapC3, recA, recB, List.map_cons,
      List.map_nil, List.sum_cons, List.sum_nil]
    norm_num [round2, round_eq]
  · simp only [recA]
    norm_num [round2, round_eq]

/-! ## C1 -/

/-- The pair of identifying classes of a `variable_info` entry. -/
def classPair (e : VarInfoEntry) : String × String := (e.main_class, e.sub_class)

/-- When the row predicate pins both classes and the entry list has no two
entries with the same class pair, summing a count over ALL matching
entries (the total of lines 241-246 and 309-317) agrees with the
first-match cell value (lines 281-299 and 351-373). -/
theorem sum_filter_eq_cellVal (l : List VarInfoEntry) (pred : VarInfoEntry → Bool)
    (f : VarInfoEntry → Int) (m s : String)
    (hpred : ∀ e, pred e = true → e.main_class = m ∧ e.sub_class = s)
    (hnodup : (l.map classPair).Nodup) :
    ((l.filter pred).map f).sum = cellVal pred f l := by
  induction l with
  | nil => simp [cellVal]
  | cons a l ih =>
    rw [List.map_cons, List.nodup_cons] at hnodup
    by_cases ha : pred a
    · have hfl : l.filter pred = [] := by
        rw [List.filter_eq_nil_iff]
        intro e he hpe
        apply hnodup.1
        rw [List.mem_map]
        refine ⟨e, he, ?_⟩
        have h1 := hpred a ha
        have h2 := hpred e hpe
        simp [classPair, h1.1, h1.2, h2.1, h2.2]
      rw [List.filter_cons_of_pos ha, List.map_cons, hfl]
      simp [cellVal, List.find?_cons_of_pos _ ha]
    · rw [List.filter_cons_of_neg (by simpa using ha)]
      rw [ih hnodup.2]
      simp [cellVal, List.find?_cons_of_neg _ (by simpa using ha)]

/-- The per-organisation entry lists built by `org_variable_info` inherit
distinct class pairs from the organisations' records (the `KeyError`
fallback is a singleton, and line 231's filter preserves distinctness). -/
theorem orgInfo_nodup_pairs (snap : Snapshot) (cls : String)
    (h : ∀ p ∈ snap, ∀ l, p.2.variable_info = some l → (l.map classPair).Nodup) :
    ∀ q ∈ orgInfo snap cls, (q.2.map classPair).Nodup := by
  intro q hq
  unfold orgInfo at hq
  rw [List.mem_map] at hq
  obtain ⟨org, _, rfl⟩ := hq
  simp only
  cases hrec : dictGet snap org with
  | none => simp [matchEntries]
  | some r =>
    cases hvi : r.variable_info with
    | none => simp [matchEntries, hvi]
    | some l =>
      have hmem : ∃ p, p ∈ snap ∧ p.2 = r := by
        unfold dictGet at hrec
        cases hf : snap.find? (fun p => p.1 = org) with
        | none => rw [hf] at hrec; simp at hrec
        | some p =>
          rw [hf] at hrec
          simp at hrec
          exact ⟨p, List.mem_of_find?_eq_some hf, hrec⟩
      obtain ⟨p, hp, hpr⟩ := hmem
      have hn := h p hp l (by rw [hpr]; exact hvi)
      simp only [matchEntries, hvi]
      exact List.Nodup.sublist
        (List.Sublist.map classPair (List.filter_sublist l)) hn

/-- C1 (amended): for every row of the availability table, PROVIDED no
organisation's `variable_info` list contains two entries with the same
(`main_class`, `sub_class`) pair, the `Total` column equals the sum of
the per-organisation columns of that row. -/
theorem availability_row_total_eq_sum_of_cells (g : GlobalSchemaData) (snap : Snapshot)
    (h : ∀ p ∈ snap, ∀ l, p.2.variable_info = some l → (l.map classPair).Nodup) :
    ∀ row ∈ fairRows g snap, row.total = (row.cells.map Prod.snd).sum := by
  intro row hrow
  unfold fairRows at hrow
  rw [List.mem_flatMap] at hrow
  obtain ⟨p, _, hrow⟩ := hrow
  have key : ∀ (pred : VarInfoEntry → Bool) (f : VarInfoEntry → Int) (m s : String),
      (∀ e, pred e = true → e.main_class = m ∧ e.sub_class = s) →
      ((orgInfo snap (substSchema p.2).cls).map
          (fun q => ((q.2.filter pred).map f).sum)).sum =
        (((orgInfo snap (substSchema p.2).cls).map
          (fun q => (q.1, cellVal pred f q.2))).map Prod.snd).sum := by
    intro pred f m s hpred
    rw [List.map_map]
    apply congrArg
    apply List.map_congr_left
    intro q hq
    exact sum_filter_eq_cellVal q.2 pred f m s hpred
      (orgInfo_nodup_pairs snap _ h q hq)
  rcases List.mem_cons.mp hrow with hr | hr
  · subst hr
    simp only [mkVarRow]
    exact key (varPred (substSchema p.2).cls) _ _ _
      (fun e he => by simpa [varPred] using he)
  · rw [List.mem_map] at hr
    obtain ⟨vt, _, rfl⟩ := hr
    simp only [mkValueRow]
    exact key (valPred (substSchema p.2).cls vt.2) _ _ _
      (fun e he => by simpa [valPred] using he)

/-- An entry matching its variable's class on both fields. -/
def eDup : VarInfoEntry :=
  { main_class := "C1", main_class_count := 3, sub_class := "C1", sub_class_count := 7 }

/-- A snapshot whose single organisation lists the matching entry twice. -/
def snapDup : Snapshot :=
  [("Org", { sample_size := 5, country := "NL", variable_info := some [eDup, eDup] })]

/-- C1 counterexample: with a duplicated matching record the variable row
has total 6 (the loop of lines 241-246 counts both copies) but the single
organisation cell holds 3 (the loop of lines 281-290 breaks at the first
match), so the claimed invariant fails as stated. -/
theorem availability_row_total_counterexample :
    ∃ row ∈ fairRows g1 snapDup, row.total ≠ (row.cells.map Prod.snd).sum := by
  decide

/-- The variable row that `fairRows g1 s1` produces. -/
def rowW : Row :=
  { variablesCol := "Diagnosis", values := "", total := 0, cells := [("OrgA", 0)] }

/-- C1 witness at a single-organisation snapshot with no duplicate pairs. -/
theorem availability_row_total_eq_sum_of_cells_witness :
    rowW.total = (rowW.cells.map Prod.snd).sum :=
  availability_row_total_eq_sum_of_cells g1 s1 (by decide) rowW (by decide)

/-! ## C8 -/

/-- The fallback record contributes a zero cell whatever the row
predicate: if it matches, its counts are 0; if not, the loop writes 0. -/
theorem cellVal_fallback (pred : VarInfoEntry → Bool) (f : VarInfoEntry → Int)
    (hf : f fallbackEntry = 0) : cellVal pred f [fallbackEntry] = 0 := by
  unfold cellVal
  cases hp : List.find? pred [fallbackEntry] with
  | none => rfl
  | some e =>
    have hm := List.mem_of_find?_eq_some hp
    simp only [List.mem_singleton] at hm
    subst hm
    exact hf

/-- C8: when an organisation's record in the latest snapshot lacks the
`variable_info` key, `generate_fair_data_availability` still succeeds (the
`KeyError` of line 232 is caught) and that organisation's cell is 0 in
every row of the table. -/
theorem missing_variable_info_gives_zero_cells (g : GlobalSchemaData)
    (d : DescriptiveData) (snap : Snapshot) (o : String) (r : OrgRecord)
    (hl : isoLatest d = .ok snap) (hn : (snap.map Prod.fst).Nodup)
    (hm : (o, r) ∈ snap) (hr : r.variable_info = none) :
    generate_fair_data_availability g d = .ok (fairRows g snap) ∧
    ∀ row ∈ fairRows g snap, dictGet row.cells o = some 0 := by
  constructor
  · unfold generate_fair_data_availability
    rw [hl]
  · intro row hrow
    unfold fairRows at hrow
    rw [List.mem_flatMap] at hrow
    obtain ⟨p, _, hrow⟩ := hrow
    have ho : o ∈ snap.map Prod.fst := List.mem_map.mpr ⟨(o, r), hm, rfl⟩
    have hget : dictGet snap o = some r := dictGet_eq_of_nodup snap o r hn hm
    have key : ∀ (pred : VarInfoEntry → Bool) (f : VarInfoEntry → Int),
        f fallbackEntry = 0 →
        dictGet ((orgInfo snap (substSchema p.2).cls).map
          (fun q => (q.1, cellVal pred f q.2))) o = some 0 := by
      intro pred f hf
      unfold orgInfo
      rw [List.map_map]
      have hcell : cellVal pred f
          (matchEntries (dictGet snap o) (substSchema p.2).cls) = 0 := by
        rw [hget]
        simp only [matchEntries, hr]
        exact cellVal_fallback pred f hf
      have htab := dictGet_tabulate (snap.map Prod.fst)
        (fun org => cellVal pred f (matchEntries (dictGet snap org) (substSchema p.2).cls))
        o ho
      simpa [Function.comp, hcell] using htab
    rcases List.mem_cons.mp hrow with hrw | hrw
    · subst hrw
      simpa only [mkVarRow] using key (varPred (substSchema p.2).cls) _ rfl
    · rw [List.mem_map] at hrw
      obtain ⟨vt, _, rfl⟩ := hrw
      simpa only [mkValueRow] using
        key (valPred (substSchema p.2).cls vt.2) _ rfl

/-- C8 witness: a schema variable, an organisation without
`variable_info`, and the produced zero cell. -/
theorem missing_variable_info_gives_zero_cells_witness :
    generate_fair_data_availability g1 [("2024-01-01T00:00:00", s1)] =
      .ok (fairRows g1 s1) ∧
    ∀ row ∈ fairRows g1 s1, dictGet row.cells "OrgA" = some 0 :=
  missing_variable_info_gives_zero_cells g1 _ s1 "OrgA" recA
    rfl (by decide) (by decide) rfl

/-! ## C2 -/

/-- C2: for every availability table and every variable of it, the
completeness chart's `Total available` plus `Total unavailable` counts
reproduce that variable's `Total` column entry.  Distinct variable labels
is the domain on which the pandas label alignment of lines 533-549 is
well-defined (tables produced by the availability builder have distinct
variable names). -/
theorem completeness_available_plus_unavailable (t : List Row)
    (_hnodup : ((availRows t).map (fun r => r.variablesCol)).Nodup) :
    ∀ e ∈ generate_completeness_chart t,
      varRowTotal t e.1 = some (e.2.1 + e.2.2) := by
  intro e he
  unfold generate_completeness_chart at he
  rw [List.mem_map] at he
  obtain ⟨v, hv, rfl⟩ := he
  rw [List.mem_map] at hv
  obtain ⟨r, hr, rfl⟩ := hv
  have hsome : (List.find? (fun q => q.variablesCol = r.variablesCol)
      (availRows t)).isSome := by
    rw [List.find?_isSome]
    exact ⟨r, hr, by simp⟩
  obtain ⟨q, hq⟩ := Option.isSome_iff_exists.mp hsome
  have hT : varRowTotal t r.variablesCol = some q.total := by
    unfold varRowTotal
    rw [hq]
    rfl
  rw [hT]
  unfold availTotal
  rw [hT]
  simp

/-- A schema variable with two values, used by the C2 witness. -/
def gC2 : GlobalSchemaData :=
  { variable_info := some
      [("diagnosis", { cls := "C1", value_mapping := [("low_grade", "T1"), ("high", "T2")] })] }

/-- An entry fully specified on both classes with count 4. -/
def eFull : VarInfoEntry :=
  { main_class := "C1", main_class_count := 4, sub_class := "C1", sub_class_count := 4 }

/-- An entry carrying the sub-class `T1` with count 3. -/
def eT1 : VarInfoEntry :=
  { main_class := "C1", main_class_count := 4, sub_class := "T1", sub_class_count := 3 }

/-- A snapshot with one organisation holding a full record and one
sub-class record. -/
def snapC2 : Snapshot :=
  [("Org", { sample_size := 5, country := "NL", variable_info := some [eFull, eT1] })]

/-- The availability table of the C2 witness. -/
def tW : List Row := fairRows gC2 snapC2

/-- C2 witness: for the `Diagnosis` variable the chart shows 3 available
and 1 unavailable, and the table's total is 4. -/
theorem completeness_available_plus_unavailable_witness :
    varRowTotal tW "Diagnosis" = some ((3 : Int) + 1) :=
  completeness_available_plus_unavailable tW (by decide)
    ("Diagnosis", (3 : Int), (1 : Int)) (by decide)

/-! ## C6 -/

/-- Rounding to two decimals moves a rational by at most 1/200. -/
theorem abs_round2_sub (q : ℚ) : |round2 q - q| ≤ 1 / 200 := by
  unfold round2
  have h := abs_sub_round (q * 100)
  have h' : |((round (q * 100) : ℤ) : ℚ) - q * 100| ≤ 1 / 2 := by
    rw [abs_sub_comm]
    exact h
  have heq : ((round (q * 100) : ℤ) : ℚ) / 100 - q
      = (((round (q * 100) : ℤ) : ℚ) - q * 100) / 100 := by ring
  rw [heq, abs_div, abs_of_pos (by norm_num : (0 : ℚ) < 100)]
  linarith

/-- Summed two-decimal roundings stay within `n`/200 of the exact sum. -/
theorem sum_map_round2_close (l : List ℚ) :
    |(l.map round2).sum - l.sum| ≤ (l.length : ℚ) / 200 := by
  induction l with
  | nil => simp
  | cons a l ih =>
    simp only [List.map_cons, List.sum_cons, List.length_cons]
    have h1 := abs_round2_sub a
    have h2 : |(round2 a + (l.map round2).sum) - (a + l.sum)|
        ≤ |round2 a - a| + |(l.map round2).sum - l.sum| := by
      have he : (round2 a + (l.map round2).sum) - (a + l.sum)
          = (round2 a - a) + ((l.map round2).sum - l.sum) := by ring
      rw [he]
      exact abs_add _ _
    have h3 : ((l.length + 1 : ℕ) : ℚ) / 200 = 1 / 200 + (l.length : ℚ) / 200 := by
      push_cast
      ring
    rw [h3]
    linarith

/-- Casting a sum of integers into `ℚ` elementwise. -/
theorem sum_map_intCast (l : List Int) :
    (l.map (fun (z : Int) => (z : ℚ))).sum = ((l.sum : Int) : ℚ) := by
  induction l with
  | nil => simp
  | cons a l ih =>
    rw [List.map_cons, List.sum_cons, List.sum_cons, ih]
    push_cast
    ring

/-- Dividing each summand by a constant divides the sum. -/
theorem sum_map_div_self (l : List ℚ) (S : ℚ) :
    (l.map (fun x => x / S)).sum = l.sum / S := by
  induction l with
  | nil => simp
  | cons a l ih => simp [ih, add_div]

/-- C6: for a non-empty `descriptive_data` with positive total sample
size, the proportions of line 111 (each organisation's sample size over
the total, rounded to two decimals) sum to 1 up to the accumulated
rounding error of at most `n`/200 for `n` organisations. -/
theorem bar_proportions_sum_near_one (d : DescriptiveData) (snap : Snapshot)
    (_hl : latestStr d = some snap)
    (hpos : 0 < (bar_sample_sizes snap).sum) :
    |(bar_proportions snap).sum - 1| ≤ (snap.length : ℚ) / 200 := by
  have hS : (((bar_sample_sizes snap).sum : Int) : ℚ) ≠ 0 := by
    exact_mod_cast hpos.ne'
  have e1 : bar_proportions snap =
      ((bar_sample_sizes snap).map
        (fun (z : Int) => (z : ℚ) / (((bar_sample_sizes snap).sum : Int) : ℚ))).map round2 := by
    unfold bar_proportions
    rw [List.map_map]
    rfl
  have e2 : ((bar_sample_sizes snap).map
      (fun (z : Int) => (z : ℚ) / (((bar_sample_sizes snap).sum : Int) : ℚ))).sum = 1 := by
    have h := sum_map_div_self ((bar_sample_sizes snap).map (fun (z : Int) => (z : ℚ)))
      (((bar_sample_sizes snap).sum : Int) : ℚ)
    rw [List.map_map, sum_map_intCast] at h
    have hcomp : ((bar_sample_sizes snap).map
        ((fun x => x / (((bar_sample_sizes snap).sum : Int) : ℚ)) ∘ fun (z : Int) => (z : ℚ)))
        = (bar_sample_sizes snap).map
          (fun (z : Int) => (z : ℚ) / (((bar_sample_sizes snap).sum : Int) : ℚ)) := rfl
    rw [hcomp] at h
    rw [h]
    exact div_self hS
  rw [e1, ← e2]
  have h := sum_map_round2_close ((bar_sample_sizes snap).map
    (fun (z : Int) => (z : ℚ) / (((bar_sample_sizes snap).sum : Int) : ℚ)))
  rw [List.length_map] at h
  have hlen : (bar_sample_sizes snap).length = snap.length := by
    unfold bar_sample_sizes
    rw [List.length_map]
  rw [hlen] at h
  exact h

/-- C6 witness: sample sizes 1 and 2 give proportions 0.33 and 0.67,
whose sum is exactly 1 ≤ bound. -/
theorem bar_proportions_sum_near_one_witness :
    |(bar_proportions snapC3).sum - 1| ≤ ((snapC3 : Snapshot).length : ℚ) / 200 :=
  bar_proportions_sum_near_one dC3 snapC3 rfl (by decide)

end Callbacks
